import Mathlib

/-!
Shallow embedding of the SOLAR device pairing and presence coordination
subsystem: the Express route handlers and MQTT message handler of
`server.js`, and the reconnect logic of the ESP32 firmware agent.

Durable Postgres tables (`users`, `devices`, `user_devices`,
`device_history`) are modelled as lists of rows with explicit serial-id
counters; the in-memory JS `Map`s (`deviceStatuses`,
`deviceConfirmationCodes`) are modelled as association lists with
JS-`Map` insertion-order semantics.  Each route handler becomes a pure
function from a server state and request arguments to a result and a new
server state; a handler that rolls back its transaction returns the
original state unchanged.
-/

namespace Solar

/-- JS `Map.get`: the value bound to the key, if any. -/
def alistLookup {V : Type} (k : String) : List (String × V) → Option V
  | [] => none
  | (k', v) :: rest => if k' = k then some v else alistLookup k rest

/-- JS `Map.set`: replace the existing binding in place, else append. -/
def alistSet {V : Type} (k : String) (v : V) : List (String × V) → List (String × V)
  | [] => [(k, v)]
  | (k', v') :: rest => if k' = k then (k, v) :: rest else (k', v') :: alistSet k v rest

/-- Row of the `users` table: serial `id`, unique `telegram_id`, optional username. -/
structure UserRow where
  id : Nat
  telegram_id : Int
  username : Option String
deriving DecidableEq, Repr

/-- Row of the `devices` table: serial `id`, unique string `device_id`, display name. -/
structure DeviceRow where
  id : Nat
  device_id : String
  name : String
deriving DecidableEq, Repr

/-- Row of the `user_devices` table: the ownership edge.  `user_id` and
`device_id` are foreign keys to the serial ids of `users` and `devices`;
`added_at` is the row timestamp. -/
structure UserDeviceRow where
  user_id : Nat
  device_id : Nat
  is_owner : Bool
  added_at : Nat
deriving DecidableEq, Repr

/-- Row of the `device_history` table (telemetry sample keyed by the
string device id). -/
structure HistoryRow where
  device_id : String
  relay_state : Option Bool
  wifi_rssi : Option Int
  uptime : Option Nat
  free_heap : Option Nat
deriving DecidableEq, Repr

/-- Decoded JSON payload of a `solar/<id>/status` message; every field may
be absent. -/
structure StatusPayload where
  relayState : Option Bool
  wifiRSSI : Option Int
  uptime : Option Nat
  freeHeap : Option Nat
  confirmationCode : Option String
deriving DecidableEq, Repr

/-- Entry of the in-memory `deviceStatuses` map: the spread of the last
status payload plus `online` and `lastSeen` (milliseconds). -/
structure PresenceRecord where
  relayState : Option Bool
  wifiRSSI : Option Int
  uptime : Option Nat
  freeHeap : Option Nat
  confirmationCode : Option String
  online : Bool
  lastSeen : Nat
deriving DecidableEq, Repr

/-- The record the JS empty object `\x7b\x7d` stands for before `online` and
`lastSeen` are spread over it: every field absent. -/
def emptyPresence : PresenceRecord :=
  { relayState := none, wifiRSSI := none, uptime := none, freeHeap := none
    confirmationCode := none, online := false, lastSeen := 0 }

/-- Whole backend state: the four durable tables with their serial-id
counters and the two in-memory maps. -/
structure ServerState where
  users : List UserRow
  devices : List DeviceRow
  userDevices : List UserDeviceRow
  deviceHistory : List HistoryRow
  deviceStatuses : List (String × PresenceRecord)
  deviceConfirmationCodes : List (String × String)
  nextUserId : Nat
  nextDeviceId : Nat
deriving DecidableEq, Repr

/-- The empty database and empty in-memory maps. -/
def initialState : ServerState :=
  { users := [], devices := [], userDevices := [], deviceHistory := []
    deviceStatuses := [], deviceConfirmationCodes := []
    nextUserId := 1, nextDeviceId := 1 }

/-- Default device name from `POST /api/devices`:
`Solar Controller ${deviceId.slice(-4)}`. -/
def defaultDeviceName (deviceId : String) : String :=
  "Solar Controller " ++ String.mk (deviceId.toList.drop (deviceId.length - 4))

/-- Errors of `POST /api/devices` (pairing). -/
inductive PairError
  | InvalidCode
  | UserNotFound
  | AlreadyLinked
deriving DecidableEq, Repr

/-- Success payload of `POST /api/devices`: the device row joined with the
new edge's `is_owner` and `added_at`. -/
structure PairResult where
  device : DeviceRow
  is_owner : Bool
  added_at : Nat
deriving DecidableEq, Repr

/-- `POST /api/devices` — the pairing transaction.  Checks the advertised
confirmation code, resolves the user (404 if absent), resolves or creates
the device row, rejects a duplicate edge, and inserts the ownership edge
with `is_owner = isNewDevice`.  Any failure rolls the transaction back,
so the original state is returned unchanged. -/
def pairDevice (s : ServerState) (userId : Int) (deviceId : String)
    (confirmationCode : String) (name : Option String) (now : Nat) :
    Except PairError PairResult × ServerState :=
  if alistLookup deviceId s.deviceConfirmationCodes ≠ some confirmationCode then
    (.error .InvalidCode, s)
  else
    match s.users.find? (fun u => u.telegram_id == userId) with
    | none => (.error .UserNotFound, s)
    | some u =>
      let resolved : DeviceRow × Bool × List DeviceRow × Nat :=
        match s.devices.find? (fun d => d.device_id == deviceId) with
        | none =>
          let newDev : DeviceRow :=
            { id := s.nextDeviceId, device_id := deviceId
              name := name.getD (defaultDeviceName deviceId) }
          (newDev, true, s.devices ++ [newDev], s.nextDeviceId + 1)
        | some d => (d, false, s.devices, s.nextDeviceId)
      let dev := resolved.1
      let isNewDevice := resolved.2.1
      if (s.userDevices.find? (fun e => e.user_id == u.id && e.device_id == dev.id)).isSome then
        (.error .AlreadyLinked, s)
      else
        (.ok { device := dev, is_owner := isNewDevice, added_at := now },
         { s with
             devices := resolved.2.2.1
             nextDeviceId := resolved.2.2.2
             userDevices := s.userDevices ++
               [{ user_id := u.id, device_id := dev.id
                  is_owner := isNewDevice, added_at := now }] })

/-- Errors of `POST /api/devices/:deviceId/share`. -/
inductive ShareError
  | Forbidden
  | DeviceNotFound
  | AlreadyLinked
deriving DecidableEq, Repr

/-- The joined owner query of the share route: the `is_owner` flag of the
edge linking the caller (by `telegram_id`) to the device (by string
`device_id`), if the user, the device and the edge all exist. -/
def shareOwnerLookup (s : ServerState) (ownerId : Int) (deviceId : String) : Option Bool :=
  match s.users.find? (fun u => u.telegram_id == ownerId) with
  | none => none
  | some u =>
    match s.devices.find? (fun d => d.device_id == deviceId) with
    | none => none
    | some d =>
      match s.userDevices.find? (fun e => e.user_id == u.id && e.device_id == d.id) with
      | none => none
      | some e => some e.is_owner

/-- `POST /api/devices/:deviceId/share` — the sharing transaction.
Rejects with 403 unless the caller's joined edge exists with
`is_owner = true`; finds or lazily creates the target user; rejects a
duplicate edge; inserts a non-owner edge.  Failures roll back. -/
def shareDevice (s : ServerState) (ownerId : Int) (deviceId : String)
    (targetTelegramId : Int) (now : Nat) : Except ShareError Unit × ServerState :=
  if shareOwnerLookup s ownerId deviceId ≠ some true then
    (.error .Forbidden, s)
  else
    let target : Nat × List UserRow × Nat :=
      match s.users.find? (fun u => u.telegram_id == targetTelegramId) with
      | none =>
        (s.nextUserId,
         s.users ++ [{ id := s.nextUserId, telegram_id := targetTelegramId, username := none }],
         s.nextUserId + 1)
      | some u => (u.id, s.users, s.nextUserId)
    match s.devices.find? (fun d => d.device_id == deviceId) with
    | none => (.error .DeviceNotFound, s)
    | some dev =>
      if (s.userDevices.find? (fun e => e.user_id == target.1 && e.device_id == dev.id)).isSome then
        (.error .AlreadyLinked, s)
      else
        (.ok (),
         { s with
             users := target.2.1
             nextUserId := target.2.2
             userDevices := s.userDevices ++
               [{ user_id := target.1, device_id := dev.id
                  is_owner := false, added_at := now }] })

/-- Errors of `DELETE /api/devices/:deviceId`. -/
inductive UnpairError
  | MissingUserId
  | NotFound
deriving DecidableEq, Repr

/-- `DELETE /api/devices/:deviceId` — the unpairing transaction.  Requires
a `userId` in the body; resolves both rows (404 if either is missing);
deletes the caller's edge; then, if zero edges remain for the device,
deletes the device row in the same transaction. -/
def unpairDevice (s : ServerState) (deviceId : String) (userId : Option Int) :
    Except UnpairError Unit × ServerState :=
  match userId with
  | none => (.error .MissingUserId, s)
  | some uid =>
    match s.users.find? (fun u => u.telegram_id == uid),
          s.devices.find? (fun d => d.device_id == deviceId) with
    | some u, some d =>
      let edges' := s.userDevices.filter
        (fun e => !(e.user_id == u.id && e.device_id == d.id))
      let remaining := (edges'.filter (fun e => e.device_id == d.id)).length
      let devices' := if remaining = 0 then s.devices.filter (fun dv => !(dv.id == d.id))
                      else s.devices
      (.ok (), { s with userDevices := edges', devices := devices' })
    | _, _ => (.error .NotFound, s)

/-- The JSON command payload built by the control route
(`JSON.stringify(\x7b command, state \x7d)`). -/
structure CommandPayload where
  command : String
  state : Option Bool
deriving DecidableEq, Repr

/-- A message published to the bus. -/
structure PublishedCommand where
  topic : String
  payload : CommandPayload
deriving DecidableEq, Repr

/-- Result type of the control route.  The route shape allows the error
statuses the other device routes use, so the type lists them; the claim
is about which of these the handler can actually produce. -/
inductive ControlResult
  | success
  | forbidden
  | notFound
deriving DecidableEq, Repr

/-- `POST /api/devices/:deviceId/control` — publishes the command payload
to `solar/<deviceId>/command` and replies success.  The handler reads no
table and no map: it performs no ownership and no existence check. -/
def controlDevice (s : ServerState) (deviceId : String) (command : String)
    (state : Option Bool) : ControlResult × ServerState × PublishedCommand :=
  (.success, s,
   { topic := "solar/" ++ deviceId ++ "/command"
     payload := { command := command, state := state } })

/-- The presence record written by a status message:
`\x7b ...status, lastSeen: now, online: true \x7d` — a fresh spread of the
payload, not a merge with the previous record. -/
def presenceOfStatus (p : StatusPayload) (now : Nat) : PresenceRecord :=
  { relayState := p.relayState, wifiRSSI := p.wifiRSSI, uptime := p.uptime
    freeHeap := p.freeHeap, confirmationCode := p.confirmationCode
    online := true, lastSeen := now }

/-- The history row `saveDeviceStatus` inserts for a status payload. -/
def historyRowOf (deviceId : String) (p : StatusPayload) : HistoryRow :=
  { device_id := deviceId, relay_state := p.relayState, wifi_rssi := p.wifiRSSI
    uptime := p.uptime, free_heap := p.freeHeap }

/-- The `status` branch of the MQTT message handler: advertise the
confirmation code when present, upsert the presence record with
`online = true`, and append one history row exactly when a `devices` row
exists for the string device id. -/
def handleStatusMessage (s : ServerState) (deviceId : String) (p : StatusPayload)
    (now : Nat) : ServerState :=
  let s1 :=
    match p.confirmationCode with
    | some code =>
      { s with deviceConfirmationCodes := alistSet deviceId code s.deviceConfirmationCodes }
    | none => s
  let s2 := { s1 with deviceStatuses := alistSet deviceId (presenceOfStatus p now) s1.deviceStatuses }
  if (s2.devices.find? (fun d => d.device_id == deviceId)).isSome then
    { s2 with deviceHistory := s2.deviceHistory ++ [historyRowOf deviceId p] }
  else s2

/-- The `online` branch of the MQTT message handler: spread the previous
record (or the empty object) and overwrite `online` with
`payload === "true"` and `lastSeen` with now. -/
def handleOnlineMessage (s : ServerState) (deviceId : String) (payload : String)
    (now : Nat) : ServerState :=
  let isOnline := payload == "true"
  let current := (alistLookup deviceId s.deviceStatuses).getD emptyPresence
  { s with deviceStatuses :=
      alistSet deviceId { current with online := isOnline, lastSeen := now } s.deviceStatuses }

/-- One record's share of the periodic sweep: flip `online` to false when
`now - lastSeen > 30000`; touch nothing else. -/
def sweepRecord (now : Nat) (r : PresenceRecord) : PresenceRecord :=
  if 30000 < now - r.lastSeen then { r with online := false } else r

/-- The periodic presence sweep (`setInterval`, 5 s cadence): apply
`sweepRecord` to every record of the map. -/
def sweepPresence (s : ServerState) (now : Nat) : ServerState :=
  { s with deviceStatuses := s.deviceStatuses.map (fun kv => (kv.1, sweepRecord now kv.2)) }

/-- The §3 edge/device invariant: every device row has at least one
ownership edge pointing at its serial id. -/
def deviceInvariant (s : ServerState) : Prop :=
  ∀ d ∈ s.devices, ∃ e ∈ s.userDevices, e.device_id = d.id

instance (s : ServerState) : Decidable (deviceInvariant s) := by
  unfold deviceInvariant
  infer_instance

/-! ## Firmware agent (device side) -/

/-- The firmware globals `reconnectMQTT` reads and writes: the WiFi and
MQTT connection flags and the `static unsigned long lastAttempt`
timestamp of the previous connection attempt (milliseconds). -/
structure FirmwareState where
  wifiConnected : Bool
  mqttConnected : Bool
  clientConnected : Bool
  lastAttempt : Nat
deriving DecidableEq, Repr

/-- `reconnectMQTT()`: return immediately when WiFi is down or when fewer
than 5000 ms have passed since the last attempt; otherwise stamp
`lastAttempt := now` and attempt one broker connection, whose outcome
`connectOk` is the environment's choice.  The returned boolean records
whether a connection attempt was made. -/
def reconnectMQTT (fw : FirmwareState) (now : Nat) (connectOk : Bool) :
    FirmwareState × Bool :=
  if !fw.wifiConnected then (fw, false)
  else if now - fw.lastAttempt < 5000 then (fw, false)
  else
    let fw' := { fw with lastAttempt := now }
    if connectOk then
      ({ fw' with mqttConnected := true, clientConnected := true }, true)
    else
      ({ fw' with mqttConnected := false }, true)

/-! ## Association-list and sweep lemmas -/

theorem alistLookup_set_self {V : Type} (k : String) (v : V) (l : List (String × V)) :
    alistLookup k (alistSet k v l) = some v := by
  induction l with
  | nil => simp [alistSet, alistLookup]
  | cons kv rest ih =>
    by_cases h : kv.1 = k <;> simp [alistSet, alistLookup, h, ih]

theorem alistLookup_map {V W : Type} (f : V → W) (k : String) (l : List (String × V)) :
    alistLookup k (l.map (fun kv => (kv.1, f kv.2))) = (alistLookup k l).map f := by
  induction l with
  | nil => rfl
  | cons kv rest ih =>
    by_cases h : kv.1 = k <;> simp [alistLookup, h, ih]

theorem sweepRecord_idem (now : Nat) (r : PresenceRecord) :
    sweepRecord now (sweepRecord now r) = sweepRecord now r := by
  by_cases h : 30000 < now - r.lastSeen <;> simp [sweepRecord, h]

theorem map_sweep_idem (now : Nat) (l : List (String × PresenceRecord)) :
    (l.map (fun kv => (kv.1, sweepRecord now kv.2))).map (fun kv => (kv.1, sweepRecord now kv.2))
      = l.map (fun kv => (kv.1, sweepRecord now kv.2)) := by
  induction l with
  | nil => rfl
  | cons kv rest ih => simp [ih, sweepRecord_idem]

/-- Status handling always leaves the handled device's presence record
equal to the fresh spread of the payload with `online = true` and
`lastSeen = now`, whether or not a history row was appended. -/
theorem handleStatus_lookup (s : ServerState) (d : String) (p : StatusPayload) (now : Nat) :
    alistLookup d (handleStatusMessage s d p now).deviceStatuses
      = some (presenceOfStatus p now) := by
  unfold handleStatusMessage
  cases p.confirmationCode <;> dsimp only <;> split <;> simp [alistLookup_set_self]

/-! ## Claim theorems -/

/-- C1: a Pair call whose candidate code is absent from the Confirmation
Registry, or differs from the advertised code, fails with `InvalidCode`
and returns the durable state (users, devices, edges, history) and the
in-memory maps unchanged. -/
theorem pair_invalid_code_rejected (s : ServerState) (userId : Int) (deviceId : String)
    (code : String) (name : Option String) (now : Nat)
    (h : alistLookup deviceId s.deviceConfirmationCodes = none ∨
         ∃ c, alistLookup deviceId s.deviceConfirmationCodes = some c ∧ c ≠ code) :
    pairDevice s userId deviceId code name now = (.error .InvalidCode, s) := by
  have hne : alistLookup deviceId s.deviceConfirmationCodes ≠ some code := by
    rcases h with h | ⟨c, hc, hcc⟩
    · simp [h]
    · simp [hc]
      exact hcc
  unfold pairDevice
  rw [if_pos hne]

theorem pair_invalid_code_rejected_witness :
    pairDevice initialState 7 "ESP32_1234" "482910" none 0
      = (.error .InvalidCode, initialState) :=
  pair_invalid_code_rejected initialState 7 "ESP32_1234" "482910" none 0 (Or.inl rfl)

/-- C5: a Share call whose caller does not appear in the joined owner
query with `is_owner = true` — the caller has a non-owner edge, has no
edge, the caller row is absent, or the device row is absent — fails with
`Forbidden` and leaves the whole state unchanged. -/
theorem share_without_owner_edge_forbidden (s : ServerState) (ownerId : Int)
    (deviceId : String) (targetId : Int) (now : Nat)
    (h : shareOwnerLookup s ownerId deviceId ≠ some true) :
    shareDevice s ownerId deviceId targetId now = (.error .Forbidden, s) := by
  unfold shareDevice
  rw [if_pos h]

theorem share_without_owner_edge_forbidden_witness :
    shareDevice initialState 7 "ESP32_1234" 9 0 = (.error .Forbidden, initialState) :=
  share_without_owner_edge_forbidden initialState 7 "ESP32_1234" 9 0 (by decide)

/-- C8: the relay control route publishes the command payload to the
device's command topic and replies success for every state and every
input — it performs no ownership or existence check, never returns
`Forbidden` or `NotFound`, and changes no state. -/
theorem control_unconditional_publish (s : ServerState) (deviceId : String)
    (command : String) (state : Option Bool) :
    (controlDevice s deviceId command state).1 = .success ∧
    (controlDevice s deviceId command state).1 ≠ .forbidden ∧
    (controlDevice s deviceId command state).1 ≠ .notFound ∧
    (controlDevice s deviceId command state).2.1 = s ∧
    (controlDevice s deviceId command state).2.2 =
      { topic := "solar/" ++ deviceId ++ "/command"
        payload := { command := command, state := state } } :=
  ⟨rfl, by simp [controlDevice], by simp [controlDevice], rfl, rfl⟩

/-- C9: `reconnectMQTT` invoked less than 5000 ms after the previous
attempt returns without attempting a broker connection and without
changing any firmware state; consequently two invocations that both
attempt a connection are at least 5000 ms apart, so at most one attempt
is made per 5-second window. -/
theorem reconnect_rate_limited (fw : FirmwareState) (now : Nat) (ok : Bool)
    (h : now - fw.lastAttempt < 5000) :
    reconnectMQTT fw now ok = (fw, false) ∧
    ∀ (fw1 fwa : FirmwareState) (n1 n2 : Nat) (ok1 ok2 : Bool),
      reconnectMQTT fw1 n1 ok1 = (fwa, true) → n2 - n1 < 5000 →
      (reconnectMQTT fwa n2 ok2).2 = false := by
  constructor
  · unfold reconnectMQTT
    cases hw : fw.wifiConnected <;> simp [hw, h]
  · intro fw1 fwa n1 n2 ok1 ok2 hatt hlt
    have hstamp : fwa.lastAttempt = n1 := by
      unfold reconnectMQTT at hatt
      cases hw : fw1.wifiConnected <;> simp [hw] at hatt
      by_cases hc : n1 - fw1.lastAttempt < 5000
      · simp [hc] at hatt
      · rw [if_neg hc] at hatt
        cases ok1 <;> simp at hatt <;> subst hatt <;> rfl
    unfold reconnectMQTT
    cases hw : fwa.wifiConnected <;> simp [hw, hstamp, hlt]

theorem reconnect_rate_limited_witness :
    reconnectMQTT { wifiConnected := true, mqttConnected := true
                    clientConnected := true, lastAttempt := 10000 } 12000 true
      = ({ wifiConnected := true, mqttConnected := true
           clientConnected := true, lastAttempt := 10000 }, false) :=
  (reconnect_rate_limited _ 12000 true (by decide)).1

/-- C10: a message on a device's online topic rewrites that device's
presence record so that `online` is true exactly when the payload is the
string "true" (any other payload yields `online = false`), `lastSeen`
becomes the processing time, and every previously recorded telemetry
field is carried over unchanged. -/
theorem online_message_sets_flag (s : ServerState) (deviceId : String)
    (payload : String) (now : Nat) :
    ∃ r : PresenceRecord,
      alistLookup deviceId (handleOnlineMessage s deviceId payload now).deviceStatuses
        = some r ∧
      (r.online = true ↔ payload = "true") ∧
      r.relayState = ((alistLookup deviceId s.deviceStatuses).getD emptyPresence).relayState ∧
      r.wifiRSSI = ((alistLookup deviceId s.deviceStatuses).getD emptyPresence).wifiRSSI ∧
      r.uptime = ((alistLookup deviceId s.deviceStatuses).getD emptyPresence).uptime ∧
      r.freeHeap = ((alistLookup deviceId s.deviceStatuses).getD emptyPresence).freeHeap ∧
      r.lastSeen = now := by
  refine ⟨{ (alistLookup deviceId s.deviceStatuses).getD emptyPresence with
              online := payload == "true", lastSeen := now },
          ?_, ?_, rfl, rfl, rfl, rfl, rfl⟩
  · simp [handleOnlineMessage, alistLookup_set_self]
  · simp

/-- C6: processing a status message appends exactly one history row when
a `devices` row exists for the message's device id, and appends none when
no such row exists; in both cases the presence record for the device is
updated (to `online = true` with the processing time). -/
theorem status_history_iff_paired (s : ServerState) (deviceId : String)
    (p : StatusPayload) (now : Nat) :
    (handleStatusMessage s deviceId p now).deviceHistory =
      (if (s.devices.find? (fun dv => dv.device_id == deviceId)).isSome
       then s.deviceHistory ++ [historyRowOf deviceId p]
       else s.deviceHistory) ∧
    alistLookup deviceId (handleStatusMessage s deviceId p now).deviceStatuses
      = some (presenceOfStatus p now) := by
  refine ⟨?_, handleStatus_lookup s deviceId p now⟩
  unfold handleStatusMessage
  cases p.confirmationCode <;> dsimp only <;> split <;> simp_all

/-- C7: a record the sweep leaves in the presence map with a `lastSeen`
more than 30000 ms before the sweep time has `online = false`; the sweep
is idempotent at a fixed time; and processing a status message for a
device always leaves its record with `online = true` and `lastSeen`
equal to the processing time. -/
theorem presence_sweep_timeout_and_resume (s : ServerState) (now : Nat)
    (d : String) (r : PresenceRecord)
    (h1 : alistLookup d (sweepPresence s now).deviceStatuses = some r)
    (h2 : 30000 < now - r.lastSeen) :
    r.online = false ∧
    sweepPresence (sweepPresence s now) now = sweepPresence s now ∧
    ∀ (p : StatusPayload) (n : Nat),
      ∃ r2 : PresenceRecord,
        alistLookup d (handleStatusMessage s d p n).deviceStatuses = some r2 ∧
        r2.online = true ∧ r2.lastSeen = n := by
  refine ⟨?_, ?_, ?_⟩
  · rw [show (sweepPresence s now).deviceStatuses
          = s.deviceStatuses.map (fun kv => (kv.1, sweepRecord now kv.2)) from rfl,
       alistLookup_map] at h1
    cases h0 : alistLookup d s.deviceStatuses with
    | none => rw [h0] at h1; simp at h1
    | some r0 =>
      rw [h0] at h1
      simp at h1
      subst h1
      by_cases hc : 30000 < now - r0.lastSeen
      · simp [sweepRecord, hc]
      · rw [show sweepRecord now r0 = r0 from by simp [sweepRecord, hc]] at h2 ⊢
        exact absurd h2 hc
  · have hmap := map_sweep_idem now s.deviceStatuses
    unfold sweepPresence
    dsimp only
    rw [hmap]
  · intro p n
    exact ⟨presenceOfStatus p n, handleStatus_lookup s d p n, rfl, rfl⟩

/-- State for the sweep witness: one device that last reported at time 0
and was online. -/
def sweepWitnessState : ServerState :=
  { initialState with
      deviceStatuses := [("ESP32_1234", { emptyPresence with online := true })] }

theorem presence_sweep_timeout_and_resume_witness :
    emptyPresence.online = false ∧
    sweepPresence (sweepPresence sweepWitnessState 40000) 40000
      = sweepPresence sweepWitnessState 40000 ∧
    ∀ (p : StatusPayload) (n : Nat),
      ∃ r2 : PresenceRecord,
        alistLookup "ESP32_1234"
          (handleStatusMessage sweepWitnessState "ESP32_1234" p n).deviceStatuses = some r2 ∧
        r2.online = true ∧ r2.lastSeen = n :=
  presence_sweep_timeout_and_resume sweepWitnessState 40000 "ESP32_1234" emptyPresence
    (by decide) (by decide)

/-- C2: each of Pair, Share and Unpair preserves the invariant that every
device row carries at least one ownership edge: Pair only creates a
device row together with its first edge in the same transaction, Share
only adds edges, and Unpair deletes the device row in the same
transaction exactly when the deletion of the caller's edge left zero
edges for the device. -/
theorem ownership_ops_preserve_device_invariant (s : ServerState)
    (hinv : deviceInvariant s)
    (pUser : Int) (pDev pCode : String) (pName : Option String) (pNow : Nat)
    (shOwner : Int) (shDev : String) (shTarget : Int) (shNow : Nat)
    (uDev : String) (uUser : Option Int) :
    deviceInvariant (pairDevice s pUser pDev pCode pName pNow).2 ∧
    deviceInvariant (shareDevice s shOwner shDev shTarget shNow).2 ∧
    deviceInvariant (unpairDevice s uDev uUser).2 := by
  refine ⟨?_, ?_, ?_⟩
  · unfold pairDevice
    by_cases hcode : alistLookup pDev s.deviceConfirmationCodes ≠ some pCode
    · rw [if_pos hcode]; exact hinv
    · rw [if_neg hcode]
      cases hu : s.users.find? (fun u => u.telegram_id == pUser) with
      | none => simp only [hu]; exact hinv
      | some u =>
        simp only [hu]
        cases hfind : s.devices.find? (fun dv => dv.device_id == pDev) with
        | none =>
          simp only [hfind]
          split
          · exact hinv
          · intro d hd
            rcases List.mem_append.mp hd with hd | hd
            · obtain ⟨e, he, hid⟩ := hinv d hd
              exact ⟨e, List.mem_append_left _ he, hid⟩
            · refine ⟨_, List.mem_append_right _ (List.mem_singleton_self _), ?_⟩
              simp at hd
              subst hd
              rfl
        | some dev =>
          simp only [hfind]
          split
          · exact hinv
          · intro d hd
            obtain ⟨e, he, hid⟩ := hinv d hd
            exact ⟨e, List.mem_append_left _ he, hid⟩
  · unfold shareDevice
    by_cases hown : shareOwnerLookup s shOwner shDev ≠ some true
    · rw [if_pos hown]; exact hinv
    · rw [if_neg hown]
      cases ht : s.users.find? (fun u => u.telegram_id == shTarget) <;>
        simp only [ht] <;>
        cases hd : s.devices.find? (fun dv => dv.device_id == shDev) <;>
        simp only [hd]
      case neg.none.none => exact hinv
      case neg.none.some dev =>
        split
        · exact hinv
        · intro d hdm
          obtain ⟨e, he, hid⟩ := hinv d hdm
          exact ⟨e, List.mem_append_left _ he, hid⟩
      case neg.some.none => exact hinv
      case neg.some.some u dev =>
        split
        · exact hinv
        · intro d hdm
          obtain ⟨e, he, hid⟩ := hinv d hdm
          exact ⟨e, List.mem_append_left _ he, hid⟩
  · unfold unpairDevice
    cases uUser with
    | none => exact hinv
    | some uid =>
      dsimp only
      cases hu : s.users.find? (fun u => u.telegram_id == uid) with
      | none => simp only [hu]; exact hinv
      | some u =>
        cases hd : s.devices.find? (fun dv => dv.device_id == uDev) with
        | none => simp only [hu, hd]; exact hinv
        | some d =>
          simp only [hu, hd]
          intro dv hdv
          have hsurvive : ∀ e ∈ s.userDevices, e.device_id ≠ d.id →
              e ∈ s.userDevices.filter
                    (fun e => !(e.user_id == u.id && e.device_id == d.id)) := by
            intro e he hne
            refine List.mem_filter.mpr ⟨he, ?_⟩
            simp [hne]
          by_cases hrem :
              ((s.userDevices.filter
                  (fun e => !(e.user_id == u.id && e.device_id == d.id))).filter
                (fun e => e.device_id == d.id)).length = 0
          · rw [if_pos hrem] at hdv
            obtain ⟨hdv1, hdv2⟩ := List.mem_filter.mp hdv
            have hne : dv.id ≠ d.id := by simpa using hdv2
            obtain ⟨e, he, hid⟩ := hinv dv hdv1
            exact ⟨e, hsurvive e he (hid ▸ hne), hid⟩
          · rw [if_neg hrem] at hdv
            by_cases hid : dv.id = d.id
            · obtain ⟨e, rest, hcons⟩ :=
                List.exists_cons_of_length_pos (Nat.pos_of_ne_zero hrem)
              have hef := hcons ▸ List.mem_cons_self e rest
              obtain ⟨he', heq⟩ := List.mem_filter.mp hef
              refine ⟨e, he', ?_⟩
              rw [hid]
              simpa using heq
            · obtain ⟨e, he, hide⟩ := hinv dv hdv
              exact ⟨e, hsurvive e he (hide ▸ hid), hide⟩

theorem ownership_ops_preserve_device_invariant_witness :
    deviceInvariant (pairDevice initialState 7 "ESP32_1234" "482913" none 0).2 ∧
    deviceInvariant (shareDevice initialState 7 "ESP32_1234" 9 0).2 ∧
    deviceInvariant (unpairDevice initialState "ESP32_1234" (some 7)).2 :=
  ownership_ops_preserve_device_invariant initialState (by decide)
    7 "ESP32_1234" "482913" none 0 7 "ESP32_1234" 9 0 "ESP32_1234" (some 7)

/-- C3: a successful Pair inserts exactly one ownership edge whose
`is_owner` flag equals `isNewDevice` — whether the device row was absent
before the call — and that flag is also the one returned; every edge a
successful Share inserts has `is_owner = false`. -/
theorem pair_share_edge_ownership (s : ServerState) (userId : Int) (deviceId : String)
    (code : String) (name : Option String) (now : Nat) (r : PairResult)
    (h : (pairDevice s userId deviceId code name now).1 = .ok r) :
    (r.is_owner = (s.devices.find? (fun dv => dv.device_id == deviceId)).isNone ∧
     ∃ e : UserDeviceRow,
       (pairDevice s userId deviceId code name now).2.userDevices
         = s.userDevices ++ [e] ∧ e.is_owner = r.is_owner) ∧
    ∀ (s2 : ServerState) (oid : Int) (d2 : String) (tid : Int) (n2 : Nat),
      (shareDevice s2 oid d2 tid n2).1 = .ok () →
      ∃ e : UserDeviceRow,
        (shareDevice s2 oid d2 tid n2).2.userDevices = s2.userDevices ++ [e] ∧
        e.is_owner = false := by
  constructor
  · unfold pairDevice at h ⊢
    by_cases hcode : alistLookup deviceId s.deviceConfirmationCodes ≠ some code
    · rw [if_pos hcode] at h; simp at h
    · rw [if_neg hcode] at h ⊢
      cases hu : s.users.find? (fun u => u.telegram_id == userId) with
      | none => simp only [hu] at h; simp at h
      | some u =>
        simp only [hu] at h ⊢
        cases hfind : s.devices.find? (fun dv => dv.device_id == deviceId) with
        | none =>
          simp only [hfind] at h ⊢
          split at h
          next hacc => simp at h
          next hacc =>
            rw [if_neg hacc]
            simp only [Except.ok.injEq] at h
            subst h
            exact ⟨rfl, ⟨_, rfl, rfl⟩⟩
        | some dev =>
          simp only [hfind] at h ⊢
          split at h
          next hacc => simp at h
          next hacc =>
            rw [if_neg hacc]
            simp only [Except.ok.injEq] at h
            subst h
            exact ⟨rfl, ⟨_, rfl, rfl⟩⟩
  · intro s2 oid d2 tid n2 hsh
    unfold shareDevice at hsh ⊢
    by_cases hown : shareOwnerLookup s2 oid d2 ≠ some true
    · rw [if_pos hown] at hsh; simp at hsh
    · rw [if_neg hown] at hsh ⊢
      cases ht : s2.users.find? (fun u => u.telegram_id == tid) <;>
        simp only [ht] at hsh ⊢ <;>
        cases hd : s2.devices.find? (fun dv => dv.device_id == d2) <;>
        simp only [hd] at hsh ⊢
      case neg.none.none => simp at hsh
      case neg.none.some dev =>
        split at hsh
        next hacc => simp at hsh
        next hacc =>
          rw [if_neg hacc]
          exact ⟨_, rfl, rfl⟩
      case neg.some.none => simp at hsh
      case neg.some.some u dev =>
        split at hsh
        next hacc => simp at hsh
        next hacc =>
          rw [if_neg hacc]
          exact ⟨_, rfl, rfl⟩

/-- State for the C3 witness: user 10 exists, device ESP32_1234
advertises code 482913 and has no device row yet. -/
def pairWitnessState : ServerState :=
  { initialState with
      users := [{ id := 1, telegram_id := 10, username := none }]
      deviceConfirmationCodes := [("ESP32_1234", "482913")]
      nextUserId := 2 }

/-- The row and edge data the C3 witness pairing returns. -/
def pairWitnessResult : PairResult :=
  { device := { id := 1, device_id := "ESP32_1234", name := defaultDeviceName "ESP32_1234" }
    is_owner := true, added_at := 5 }

/-- State for the C3 share witness: user 10 holds the owner edge of
device row 1 and user 20 does not exist yet. -/
def shareWitnessState : ServerState :=
  { initialState with
      users := [{ id := 1, telegram_id := 10, username := none }]
      devices := [{ id := 1, device_id := "ESP32_1234", name := "Solar Controller 1234" }]
      userDevices := [{ user_id := 1, device_id := 1, is_owner := true, added_at := 0 }]
      nextUserId := 2, nextDeviceId := 2 }

theorem pair_share_edge_ownership_witness :
    (pairWitnessResult.is_owner
        = (pairWitnessState.devices.find? (fun dv => dv.device_id == "ESP32_1234")).isNone ∧
     ∃ e : UserDeviceRow,
       (pairDevice pairWitnessState 10 "ESP32_1234" "482913" none 5).2.userDevices
         = pairWitnessState.userDevices ++ [e] ∧ e.is_owner = pairWitnessResult.is_owner) ∧
    ∃ e : UserDeviceRow,
      (shareDevice shareWitnessState 10 "ESP32_1234" 20 6).2.userDevices
        = shareWitnessState.userDevices ++ [e] ∧ e.is_owner = false := by
  have H := pair_share_edge_ownership pairWitnessState 10 "ESP32_1234" "482913" none 5
    pairWitnessResult (by rfl)
  exact ⟨H.1, H.2 shareWitnessState 10 "ESP32_1234" 20 6 (by rfl)⟩

/-- Registry state for the C4 scenario: device ESP32_1234 advertises code
482913 and the users table is empty. -/
def pairNoUserState : ServerState :=
  { initialState with deviceConfirmationCodes := [("ESP32_1234", "482913")] }

/-- C4 counterexample: a Pair call whose candidate code matches the
advertised code but whose userExternalId has no User row fails (with the
404 user-not-found error) instead of lazily creating the user, so the
claim that such a call never fails merely for lack of a User row is
false on the code. -/
theorem pair_no_lazy_user_counterexample :
    alistLookup "ESP32_1234" pairNoUserState.deviceConfirmationCodes = some "482913" ∧
    pairNoUserState.users = [] ∧
    (pairDevice pairNoUserState 7 "ESP32_1234" "482913" none 0).1
      = .error .UserNotFound := by
  refine ⟨by decide, rfl, by rfl⟩

/-- C4 amended: a Pair call whose candidate code matches the advertised
code but for which no User row exists for userExternalId fails with the
user-not-found error and leaves all state unchanged — Pair resolves but
never creates the User row; lazy user creation happens only in the
user-creation endpoint and in Share. -/
theorem pair_requires_existing_user (s : ServerState) (userId : Int) (deviceId : String)
    (code : String) (name : Option String) (now : Nat)
    (h1 : alistLookup deviceId s.deviceConfirmationCodes = some code)
    (h2 : s.users.find? (fun u => u.telegram_id == userId) = none) :
    pairDevice s userId deviceId code name now = (.error .UserNotFound, s) := by
  unfold pairDevice
  rw [if_neg (by simp [h1]), h2]

theorem pair_requires_existing_user_witness :
    pairDevice pairNoUserState 7 "ESP32_1234" "482913" none 0
      = (.error .UserNotFound, pairNoUserState) :=
  pair_requires_existing_user pairNoUserState 7 "ESP32_1234" "482913" none 0
    (by decide) (by decide)

end Solar
